import Mathlib

/-!
Shallow embedding of the flow-control core of the repository:
`src/inet/queueing/base/PacketFlowBase.cc` (the Flow Coordinator) and
`src/inet/queueing/server/PreemptingServer.cc` (the Rate-Limited
Preempting Server).

Modelling conventions:
* A `Packet` carries the three identities used by the code
  (`treeId`, `transmissionId`, `totalLength`); lengths are in bits (`Nat`),
  data rates and simulation times are exact rationals (`Rat`).
* The coordinator state is the single field `inProgressStreamId : Int`
  with the source's `-1` sentinel for "no open streaming session".
* Neighbor modules (producer / consumer / provider / collector) are an
  environment: presence flags plus the packet the provider hands back.
* Every outward interaction of a member function (signal emission,
  push-or-send to the consumer, pull from the provider, animation on the
  output gate, observer bookkeeping, neighbor notification) is recorded
  as an event in the order the source performs it.  `take`,
  `Enter_Method` and `updateDisplayString` have no modelled effect.
* `throw cRuntimeError` is modelled by the `fatal` result constructor,
  carrying the state at the throw point and the events performed so far.
-/

namespace INetQueueing

/-- A packet: `treeId` identifies the streamed session, `transmissionId`
the transmission, `totalLength` is the length in bits. -/
structure Packet where
  treeId : Nat
  transmissionId : Nat
  totalLength : Nat
deriving DecidableEq, BEq, Repr

/-- Mutable state of `PacketFlowBase`: the id of the in-progress streamed
packet, `-1` when idle (source field `inProgressStreamId`). -/
structure FlowState where
  inProgressStreamId : Int
deriving DecidableEq, BEq, Repr

/-- Neighbor environment of a `PacketFlowBase` module: which optional
neighbors are bound, and the packet the provider returns when pulled. -/
structure FlowEnv where
  hasProducer : Bool
  hasConsumer : Bool
  hasProvider : Bool
  hasCollector : Bool
  providerPacket : Packet
deriving DecidableEq, BEq, Repr

/-- Outward interactions of `PacketFlowBase` member functions, one
constructor per call site kind in the source. -/
inductive FlowEvent where
  /-- `emit(packetPushedInSignal, packet)` -/
  | sigPushedIn (p : Packet)
  /-- `emit(packetPushedOutSignal, packet)` -/
  | sigPushedOut (p : Packet)
  /-- `emit(packetPulledInSignal, packet)` -/
  | sigPulledIn (p : Packet)
  /-- `emit(packetPulledOutSignal, packet)` -/
  | sigPulledOut (p : Packet)
  /-- `pushOrSendPacket(packet, outputGate, ..., consumer)` -/
  | consumerPush (p : Packet)
  /-- `pushOrSendPacketStart(packet, ..., consumer, datarate, ...)` -/
  | consumerPushStart (p : Packet) (datarate : Rat)
  /-- `pushOrSendPacketProgress(packet, ..., datarate, position, extraProcessableLength, ...)` -/
  | consumerPushProgress (p : Packet) (datarate : Rat) (position extra : Nat)
  /-- `pushOrSendPacketEnd(packet, outputGate, ..., consumer, ...)` -/
  | consumerPushEnd (p : Packet)
  /-- `provider->pullPacket(...)` returning `p` -/
  | providerPull (p : Packet)
  /-- `provider->pullPacketStart(..., datarate)` returning `p` -/
  | providerPullStart (p : Packet) (datarate : Rat)
  /-- `provider->pullPacketProgress(..., datarate, position, extraProcessableLength)` returning `p` -/
  | providerPullProgress (p : Packet) (datarate : Rat) (position extra : Nat)
  /-- `provider->pullPacketEnd(...)` returning `p` -/
  | providerPullEnd (p : Packet)
  /-- `animatePullPacket(packet, outputGate, ...)` -/
  | animatePull (p : Packet)
  /-- `animatePullPacketStart(packet, ..., datarate, ...)` -/
  | animatePullStart (p : Packet) (datarate : Rat)
  /-- `animatePullPacketProgress(packet, ..., datarate, position, extraProcessableLength, ...)` -/
  | animatePullProgress (p : Packet) (datarate : Rat) (position extra : Nat)
  /-- `animatePullPacketEnd(packet, outputGate, ...)` -/
  | animatePullEnd (p : Packet)
  /-- `handlePacketProcessed(packet)` observer bookkeeping -/
  | packetProcessed (p : Packet)
  /-- `producer->handleCanPushPacketChanged(...)` -/
  | producerCanPushChanged
  /-- `producer->handlePushPacketProcessed(packet, ..., successful)` -/
  | producerPushProcessed (p : Packet) (successful : Bool)
  /-- `collector->handleCanPullPacketChanged(...)` -/
  | collectorCanPullChanged
  /-- `collector->handlePullPacketProcessed(packet, ..., successful)` -/
  | collectorPullProcessed (p : Packet) (successful : Bool)
deriving DecidableEq, BEq, Repr

/-- Result of a `PacketFlowBase` operation: normal termination with the
new state, the event trace and a return value, or a fatal
`cRuntimeError` carrying the state at the throw point and the events
already performed before the throw. -/
inductive FlowResult (α : Type) where
  | ok (state : FlowState) (events : List FlowEvent) (value : α)
  | fatal (message : String) (state : FlowState) (events : List FlowEvent)
deriving DecidableEq, BEq, Repr

/-- The message of the `cRuntimeError` thrown by `checkPacketStreaming`. -/
def streamingErrorMsg : String :=
  "Another packet streaming operation is already in progress"

/-- Condition under which `PacketFlowBase::checkPacketStreaming(packet)`
throws: `inProgressStreamId != -1 && (packet == nullptr || packet->getTreeId() != inProgressStreamId)`. -/
def packetStreamingViolation (s : FlowState) (packet : Option Packet) : Bool :=
  s.inProgressStreamId != -1 &&
    (match packet with
     | none => true
     | some p => (p.treeId : Int) != s.inProgressStreamId)

/-- `PacketFlowBase::isStreamingPacket` (header inline):
`inProgressStreamId != -1`. -/
def isStreamingPacket (s : FlowState) : Bool :=
  s.inProgressStreamId != -1

/-- `PacketFlowBase::startPacketStreaming`: record the packet's tree id. -/
def startPacketStreaming (s : FlowState) (packet : Packet) : FlowState :=
  { s with inProgressStreamId := (packet.treeId : Int) }

/-- `PacketFlowBase::endPacketStreaming`: `handlePacketProcessed(packet)`
then reset `inProgressStreamId` to `-1`. -/
def endPacketStreaming (s : FlowState) (packet : Packet) : FlowState × List FlowEvent :=
  ({ s with inProgressStreamId := -1 }, [.packetProcessed packet])

/-- Modelled from the spec: `PacketFlowBase::processPacket` is declared in
the header (not under `src/`) and the spec states it is the per-packet
processing hook, an "identity operation unless overridden". -/
def processPacket (packet : Packet) : Packet :=
  packet

/-- `PacketFlowBase::pushPacket`: consistency check with a null candidate,
then emit pushed-in, process, bookkeep, emit pushed-out, push-or-send to
the consumer.  The state is left unchanged (necessarily idle). -/
def pushPacket (s : FlowState) (packet : Packet) : FlowResult Unit :=
  if packetStreamingViolation s none then
    .fatal streamingErrorMsg s []
  else
    let p2 := processPacket packet
    .ok s [.sigPushedIn packet, .packetProcessed p2, .sigPushedOut p2, .consumerPush p2] ()

/-- `PacketFlowBase::pushPacketStart`: consistency check against the
pushed packet, emit pushed-in, open the session, process, push-start to
the consumer at the given data rate. -/
def pushPacketStart (s : FlowState) (packet : Packet) (datarate : Rat) : FlowResult Unit :=
  if packetStreamingViolation s (some packet) then
    .fatal streamingErrorMsg s []
  else
    let s2 := startPacketStreaming s packet
    let p2 := processPacket packet
    .ok s2 [.sigPushedIn packet, .consumerPushStart p2 datarate] ()

/-- Shared tail of `PacketFlowBase::pushPacketEnd` after the
start-or-check prologue: process, emit pushed-out, close the session,
push-end to the consumer. -/
def pushPacketEndBody (s : FlowState) (packet : Packet) : FlowResult Unit :=
  let p2 := processPacket packet
  let r := endPacketStreaming s p2
  .ok r.1 ([FlowEvent.sigPushedOut p2] ++ r.2 ++ [FlowEvent.consumerPushEnd p2]) ()

/-- `PacketFlowBase::pushPacketEnd`: if no session is open, open one for
this packet; otherwise check it matches; then run the shared tail. -/
def pushPacketEnd (s : FlowState) (packet : Packet) : FlowResult Unit :=
  if !isStreamingPacket s then
    pushPacketEndBody (startPacketStreaming s packet) packet
  else if packetStreamingViolation s (some packet) then
    .fatal streamingErrorMsg s []
  else
    pushPacketEndBody s packet

/-- Shared tail of `PacketFlowBase::pushPacketProgress` after the
start-or-check prologue: decide whether `position + extraProcessableLength`
reaches `totalLength`; if so behave as an implicit end, otherwise forward
a progress to the consumer. -/
def pushPacketProgressBody (s : FlowState) (packet : Packet) (datarate : Rat)
    (position extra : Nat) : FlowResult Unit :=
  let isPacketEnd := packet.totalLength == position + extra
  let p2 := processPacket packet
  if isPacketEnd then
    let r := endPacketStreaming s p2
    .ok r.1 ([FlowEvent.sigPushedOut p2] ++ r.2 ++ [FlowEvent.consumerPushEnd p2]) ()
  else
    .ok s [.consumerPushProgress p2 datarate position extra] ()

/-- `PacketFlowBase::pushPacketProgress`: start-or-check prologue, then
the shared progress tail. -/
def pushPacketProgress (s : FlowState) (packet : Packet) (datarate : Rat)
    (position extra : Nat) : FlowResult Unit :=
  if !isStreamingPacket s then
    pushPacketProgressBody (startPacketStreaming s packet) packet datarate position extra
  else if packetStreamingViolation s (some packet) then
    .fatal streamingErrorMsg s []
  else
    pushPacketProgressBody s packet datarate position extra

/-- `PacketFlowBase::handleCanPushPacketChanged`: forward to the bound
producer when present, otherwise do nothing. -/
def handleCanPushPacketChanged (env : FlowEnv) (s : FlowState) :
    FlowState × List FlowEvent :=
  (s, if env.hasProducer then [.producerCanPushChanged] else [])

/-- `PacketFlowBase::handlePushPacketProcessed`: unconditionally
`endPacketStreaming(packet)`, then forward to the bound producer when
present. -/
def handlePushPacketProcessed (env : FlowEnv) (s : FlowState) (packet : Packet)
    (successful : Bool) : FlowResult Unit :=
  let r := endPacketStreaming s packet
  .ok r.1 (r.2 ++ if env.hasProducer then [.producerPushProcessed packet successful] else []) ()

/-- Whether a flow operation result is the fatal consistency error. -/
def FlowResult.isFatal {α : Type} : FlowResult α → Bool
  | .ok _ _ _ => false
  | .fatal _ _ _ => true

/-- Frame of a fatal outcome: if the result is fatal, then the state
recorded at the throw point is the entry state `s` and the neighbor
interactions already performed are exactly `allowed`. -/
def FatalFrame {α : Type} (r : FlowResult α) (s : FlowState) (allowed : List FlowEvent) : Prop :=
  match r with
  | .ok _ _ _ => True
  | .fatal _ s2 ev => s2 = s ∧ ev = allowed

/-- Events that deliver an end to the downstream side of the
coordinator: a streaming push-end to the consumer, or the end animation
on the output gate. -/
def isDownstreamEndNotice : FlowEvent → Bool
  | .consumerPushEnd _ => true
  | .animatePullEnd _ => true
  | _ => false

/-- Events that pull a packet from the upstream provider. -/
def isProviderPullEvent : FlowEvent → Bool
  | .providerPull _ => true
  | .providerPullStart _ _ => true
  | .providerPullProgress _ _ _ _ => true
  | .providerPullEnd _ => true
  | _ => false

/-- Events that move or process a packet, as opposed to pure
back-pressure or processed notifications and signals. -/
def isPacketOperationEvent : FlowEvent → Bool
  | .consumerPush _ => true
  | .consumerPushStart _ _ => true
  | .consumerPushProgress _ _ _ _ => true
  | .consumerPushEnd _ => true
  | .providerPull _ => true
  | .providerPullStart _ _ => true
  | .providerPullProgress _ _ _ _ => true
  | .providerPullEnd _ => true
  | .packetProcessed _ => true
  | _ => false

/-- The packet the downstream consumer ends up having received from a
push interaction: the packet of the last atomic push or push-end event
delivered to the consumer. -/
def consumerDelivery : FlowEvent → Option Packet
  | .consumerPush p => some p
  | .consumerPushEnd p => some p
  | _ => none

/-- Final delivery extracted from an event trace. -/
def deliveredPacket (events : List FlowEvent) : Option Packet :=
  (events.filterMap consumerDelivery).getLast?

/-- `PacketFlowBase::pullPacket`: consistency check with a null
candidate, then pull one packet from the provider, emit pulled-in,
process, bookkeep, emit pulled-out, animate, and return the packet. -/
def pullPacket (env : FlowEnv) (s : FlowState) : FlowResult Packet :=
  if packetStreamingViolation s none then
    .fatal streamingErrorMsg s []
  else
    let packet := env.providerPacket
    let p2 := processPacket packet
    .ok s [.providerPull packet, .sigPulledIn packet, .packetProcessed p2,
           .sigPulledOut p2, .animatePull p2] p2

/-- `PacketFlowBase::pullPacketStart`: consistency check with a null
candidate, then pull-start from the provider, emit pulled-in, open the
session on the pulled packet's tree id, process, emit pulled-out,
animate, and return the packet. -/
def pullPacketStart (env : FlowEnv) (s : FlowState) (datarate : Rat) : FlowResult Packet :=
  if packetStreamingViolation s none then
    .fatal streamingErrorMsg s []
  else
    let packet := env.providerPacket
    let s2 : FlowState := { s with inProgressStreamId := (packet.treeId : Int) }
    let p2 := processPacket packet
    .ok s2 [.providerPullStart packet datarate, .sigPulledIn packet,
            .sigPulledOut p2, .animatePullStart p2 datarate] p2

/-- `PacketFlowBase::pullPacketEnd`: pull-end from the provider FIRST,
then run the consistency check against the pulled packet; on success emit
pulled-in, process, set the stream id, emit pulled-out, close the
session, animate, and return the packet. -/
def pullPacketEnd (env : FlowEnv) (s : FlowState) : FlowResult Packet :=
  let packet := env.providerPacket
  if packetStreamingViolation s (some packet) then
    .fatal streamingErrorMsg s [.providerPullEnd packet]
  else
    let p2 := processPacket packet
    let s2 : FlowState := { s with inProgressStreamId := (p2.treeId : Int) }
    let r := endPacketStreaming s2 p2
    .ok r.1 ([FlowEvent.providerPullEnd packet, FlowEvent.sigPulledIn packet,
              FlowEvent.sigPulledOut p2] ++ r.2 ++ [FlowEvent.animatePullEnd p2]) p2

/-- `PacketFlowBase::pullPacketProgress`: pull-progress from the provider
FIRST, then the consistency check against the pulled packet; on success
set the stream id, decide whether `position + extraProcessableLength`
reaches `totalLength` (implicit end: emit pulled-out and close the
session), animate a progress either way, and return the packet. -/
def pullPacketProgress (env : FlowEnv) (s : FlowState) (datarate : Rat)
    (position extra : Nat) : FlowResult Packet :=
  let packet := env.providerPacket
  if packetStreamingViolation s (some packet) then
    .fatal streamingErrorMsg s [.providerPullProgress packet datarate position extra]
  else
    let s2 : FlowState := { s with inProgressStreamId := (packet.treeId : Int) }
    let isPacketEnd := packet.totalLength == position + extra
    let p2 := processPacket packet
    if isPacketEnd then
      let r := endPacketStreaming s2 p2
      .ok r.1 ([FlowEvent.providerPullProgress packet datarate position extra,
                FlowEvent.sigPulledOut p2] ++ r.2 ++
               [FlowEvent.animatePullProgress p2 datarate position extra]) p2
    else
      .ok s2 [.providerPullProgress packet datarate position extra,
              .animatePullProgress p2 datarate position extra] p2

/-- `PacketFlowBase::handleCanPullPacketChanged`: forward to the bound
collector when present, otherwise do nothing. -/
def handleCanPullPacketChangedFlow (env : FlowEnv) (s : FlowState) :
    FlowState × List FlowEvent :=
  (s, if env.hasCollector then [.collectorCanPullChanged] else [])

/-- `PacketFlowBase::handlePullPacketProcessed`: unconditionally
`endPacketStreaming(packet)`, then forward to the bound collector when
present. -/
def handlePullPacketProcessed (env : FlowEnv) (s : FlowState) (packet : Packet)
    (successful : Bool) : FlowResult Unit :=
  let r := endPacketStreaming s packet
  .ok r.1 (r.2 ++ if env.hasCollector then [.collectorPullProcessed packet successful] else []) ()

namespace PreemptingServer

/-- Construction-time configuration of `PreemptingServer`: the fixed data
rate (`datarate` module parameter, bits per unit time). -/
structure Config where
  datarate : Rat
deriving DecidableEq, BEq, Repr

/-- Neighbor environment of `PreemptingServer`: the provider's and
consumer's capability answers and the packets the provider returns from
`pullPacketStart` and `pullPacketEnd`. -/
structure Env where
  providerCanPull : Bool
  consumerCanPush : Bool
  pullStartPacket : Packet
  pullEndPacket : Packet
deriving DecidableEq, BEq, Repr

/-- Mutable state of `PreemptingServer`: `streamedPacket` (non-null iff
the server is Streaming) and the scheduled absolute fire time of the
completion timer, `none` when the timer is not scheduled. -/
structure State where
  streamedPacket : Option Packet
  timerAt : Option Rat
deriving DecidableEq, BEq, Repr

/-- Outward interactions of `PreemptingServer` member functions. -/
inductive Event where
  /-- `provider->pullPacketStart(..., datarate)` returning `p` -/
  | providerPullStart (p : Packet) (datarate : Rat)
  /-- `provider->pullPacketEnd(...)` returning `p` -/
  | providerPullEnd (p : Packet)
  /-- `pushOrSendPacketStart(packet, ..., consumer, datarate, ...)` -/
  | consumerPushStart (p : Packet) (datarate : Rat)
  /-- `pushOrSendPacketEnd(packet, ..., consumer, ...)` -/
  | consumerPushEnd (p : Packet)
  /-- `scheduleClockEventAfter(...)`, recorded with the absolute due time -/
  | scheduleTimerAt (t : Rat)
  /-- `cancelClockEvent(timer)` -/
  | cancelTimer
  /-- `handlePacketProcessed(packet)` observer bookkeeping -/
  | packetProcessed (p : Packet)
deriving DecidableEq, BEq, Repr

/-- `PreemptingServer::isStreaming` (header inline, modelled from the
spec sentence "non-null iff Streaming"): `streamedPacket != nullptr`. -/
def isStreaming (s : State) : Bool :=
  s.streamedPacket.isSome

/-- `PreemptingServer::canStartStreaming`: the provider can be pulled
from and the consumer can be pushed to. -/
def canStartStreaming (env : Env) : Bool :=
  env.providerCanPull && env.consumerCanPush

/-- `Packet::dup()`: a value copy of the packet (identical contents in
this value-level embedding). -/
def dup (p : Packet) : Packet :=
  p

/-- `PreemptingServer::startStreaming` at current time `now`: pull-start
from the provider at the configured rate, store the packet in
`streamedPacket`, push-start a duplicate to the consumer at the same
rate, schedule the completion timer `totalLength / datarate` ahead, and
report the packet as processed. -/
def startStreaming (cfg : Config) (env : Env) (now : Rat) : State × List Event :=
  let packet := env.pullStartPacket
  let due := now + (packet.totalLength : Rat) / cfg.datarate
  ({ streamedPacket := some packet, timerAt := some due },
   [.providerPullStart packet cfg.datarate,
    .consumerPushStart (dup packet) cfg.datarate,
    .scheduleTimerAt due,
    .packetProcessed packet])

/-- `PreemptingServer::endStreaming`: pull-end from the provider, discard
the old `streamedPacket`, push-end the finalized packet to the consumer,
and clear `streamedPacket`.  The timer field is not touched here. -/
def endStreaming (env : Env) (s : State) : State × List Event :=
  let packet := env.pullEndPacket
  ({ s with streamedPacket := none },
   [.providerPullEnd packet, .consumerPushEnd packet])

/-- The completion timer can fire at time `t` iff it is scheduled for
exactly that time. -/
def timerFires (s : State) (t : Rat) : Bool :=
  s.timerAt == some t

/-- `PreemptingServer::handleMessage` on the timer self-message: the
event is consumed (timer disarmed) and `endStreaming` runs.  Enabled
only when `timerFires` holds; `fireTimer` returns `none` otherwise. -/
def fireTimer (env : Env) (s : State) (t : Rat) : Option (State × List Event) :=
  if timerFires s t then
    some (endStreaming env { s with timerAt := none })
  else
    none

/-- `PreemptingServer::handleCanPushPacketChanged`: when not streaming
and `canStartStreaming()` holds, start streaming; otherwise nothing. -/
def handleCanPushPacketChanged (cfg : Config) (env : Env) (s : State) (now : Rat) :
    State × List Event :=
  if !isStreaming s && canStartStreaming env then
    startStreaming cfg env now
  else
    (s, [])

/-- `PreemptingServer::handleCanPullPacketChanged`: when streaming,
preempt — `endStreaming` then `cancelClockEvent(timer)`; when idle and
`canStartStreaming()` holds, start streaming; otherwise nothing. -/
def handleCanPullPacketChanged (cfg : Config) (env : Env) (s : State) (now : Rat) :
    State × List Event :=
  if isStreaming s then
    let r := endStreaming env s
    ({ r.1 with timerAt := none }, r.2 ++ [.cancelTimer])
  else if canStartStreaming env then
    startStreaming cfg env now
  else
    (s, [])

/-- `PreemptingServer::handlePushPacketProcessed`: when streaming, delete
the old `streamedPacket`, pull-end from the provider, and delete that
finalized packet too, leaving `streamedPacket` null; the timer is not
touched.  When idle, nothing happens. -/
def handlePushPacketProcessed (env : Env) (s : State) : State × List Event :=
  if isStreaming s then
    ({ s with streamedPacket := none }, [.providerPullEnd env.pullEndPacket])
  else
    (s, [])

end PreemptingServer

/-- C8: `pushPacketEnd` — with no open session it opens one for the
packet and immediately closes it; with an open session it must match the
packet's `treeId` (fatal otherwise); in every non-fatal case the session
is closed (state `-1`), the packet is processed, and an end is forwarded
to the consumer, so the coordinator is idle when the call returns. -/
theorem pushPacketEnd_closes_session (s : FlowState) (packet : Packet) :
    pushPacketEnd s packet =
      if packetStreamingViolation s (some packet) then
        .fatal streamingErrorMsg s []
      else
        .ok ⟨-1⟩ [.sigPushedOut (processPacket packet),
                  .packetProcessed (processPacket packet),
                  .consumerPushEnd (processPacket packet)] () := by
  unfold pushPacketEnd pushPacketEndBody endPacketStreaming
  split
  · next h =>
    have hIdle : s.inProgressStreamId = -1 := by
      simpa [isStreamingPacket] using h
    have hv : packetStreamingViolation s (some packet) = false := by
      simp [packetStreamingViolation, hIdle]
    simp [hv, startPacketStreaming]
  · next h =>
    split
    · next hv => simp [hv]
    · next hv => simp [hv]

/-- C9: back-pressure relay — `handleCanPushPacketChanged` leaves the
coordinator state unchanged and forwards the notification to the bound
producer exactly once (zero times when no producer is bound), with no
packet operation in its trace; `handleCanPullPacketChanged` does the
same toward the bound collector. -/
theorem backpressure_relay (env : FlowEnv) (s : FlowState) :
    (handleCanPushPacketChanged env s).1 = s ∧
    ((handleCanPushPacketChanged env s).2.countP
        (fun e => decide (e = FlowEvent.producerCanPushChanged))) =
      (if env.hasProducer then 1 else 0) ∧
    ((handleCanPushPacketChanged env s).2.all (fun e => !isPacketOperationEvent e)) = true ∧
    (handleCanPullPacketChangedFlow env s).1 = s ∧
    ((handleCanPullPacketChangedFlow env s).2.countP
        (fun e => decide (e = FlowEvent.collectorCanPullChanged))) =
      (if env.hasCollector then 1 else 0) ∧
    ((handleCanPullPacketChangedFlow env s).2.all (fun e => !isPacketOperationEvent e)) = true := by
  unfold handleCanPushPacketChanged handleCanPullPacketChangedFlow
  cases hp : env.hasProducer <;> cases hc : env.hasCollector <;>
    simp [List.countP, List.countP.go, isPacketOperationEvent]

/-- C10: `handlePushPacketProcessed` and `handlePullPacketProcessed`
never raise an error in any state: each unconditionally closes whatever
streaming session is open (the resulting stream id is `-1`), records the
given packet as processed, and forwards the notification to the bound
producer (resp. collector) when present — even when the given packet's
`treeId` differs from the open session's, since neither entry point runs
the streaming-consistency check. -/
theorem handleProcessed_never_fatal (env : FlowEnv) (s : FlowState)
    (packet : Packet) (successful : Bool) :
    handlePushPacketProcessed env s packet successful =
      .ok ⟨-1⟩ ([.packetProcessed packet] ++
        if env.hasProducer then [.producerPushProcessed packet successful] else []) () ∧
    handlePullPacketProcessed env s packet successful =
      .ok ⟨-1⟩ ([.packetProcessed packet] ++
        if env.hasCollector then [.collectorPullProcessed packet successful] else []) () ∧
    (handlePushPacketProcessed env s packet successful).isFatal = false ∧
    (handlePullPacketProcessed env s packet successful).isFatal = false := by
  unfold handlePushPacketProcessed handlePullPacketProcessed endPacketStreaming
  refine ⟨rfl, rfl, ?_, ?_⟩ <;> simp [FlowResult.isFatal]

/-- C1, counterexample: with a session open for tree id 5 and the
provider about to hand back the packet with the same tree id 5,
`pullPacketStart` still fails fatally — the claim states that when the
open session's tree id matches the candidate packet's tree id no such
error is raised, which is false here because `pullPacketStart` runs the
consistency check with a null candidate before pulling the packet. -/
theorem pullPacketStart_fatal_despite_matching_treeId :
    ((⟨5, 0, 100⟩ : Packet).treeId : Int) = (⟨5⟩ : FlowState).inProgressStreamId ∧
    pullPacketStart ⟨true, true, true, true, ⟨5, 0, 100⟩⟩ ⟨5⟩ 8 =
      .fatal streamingErrorMsg ⟨5⟩ [] := by decide

/-- C1 (amended): fatality of each Flow Coordinator operation is exactly
characterized by the source's consistency condition — atomic push,
atomic pull AND `pullPacketStart` (which checks with a null candidate
before obtaining the packet) fail iff any session is open; push
Start/Progress/End and pull Progress/End fail iff a session is open for
a tree id different from the candidate packet's; in all remaining cases
no error is raised. -/
theorem streamingCheck_fatality (s : FlowState) (packet : Packet) (env : FlowEnv)
    (datarate : Rat) (position extra : Nat) :
    (pushPacket s packet).isFatal = isStreamingPacket s ∧
    (pullPacket env s).isFatal = isStreamingPacket s ∧
    (pullPacketStart env s datarate).isFatal = isStreamingPacket s ∧
    (pushPacketStart s packet datarate).isFatal = packetStreamingViolation s (some packet) ∧
    (pushPacketProgress s packet datarate position extra).isFatal =
      packetStreamingViolation s (some packet) ∧
    (pushPacketEnd s packet).isFatal = packetStreamingViolation s (some packet) ∧
    (pullPacketProgress env s datarate position extra).isFatal =
      packetStreamingViolation s (some env.providerPacket) ∧
    (pullPacketEnd env s).isFatal = packetStreamingViolation s (some env.providerPacket) := by
  have hnone : packetStreamingViolation s none = isStreamingPacket s := by
    simp [packetStreamingViolation, isStreamingPacket]
  have hIdleNoViol : ∀ p : Packet, isStreamingPacket s = false →
      packetStreamingViolation s (some p) = false := by
    intro p h
    have : s.inProgressStreamId = -1 := by simpa [isStreamingPacket] using h
    simp [packetStreamingViolation, this]
  have hBodyP : ∀ st, (pushPacketProgressBody st packet datarate position extra).isFatal = false := by
    intro st
    cases hE : packet.totalLength == position + extra <;>
      simp [pushPacketProgressBody, endPacketStreaming, hE, FlowResult.isFatal]
  have hBodyE : ∀ st, (pushPacketEndBody st packet).isFatal = false := by
    intro st
    simp [pushPacketEndBody, endPacketStreaming, FlowResult.isFatal]
  refine ⟨?_, ?_, ?_, ?_, ?_, ?_, ?_, ?_⟩
  · cases hv : packetStreamingViolation s none <;>
      simp_all [pushPacket, FlowResult.isFatal]
  · cases hv : packetStreamingViolation s none <;>
      simp_all [pullPacket, FlowResult.isFatal]
  · cases hv : packetStreamingViolation s none <;>
      simp_all [pullPacketStart, FlowResult.isFatal]
  · cases hv : packetStreamingViolation s (some packet) <;>
      simp [pushPacketStart, hv, FlowResult.isFatal]
  · cases hS : isStreamingPacket s
    · simp [pushPacketProgress, hS, hBodyP, hIdleNoViol packet hS]
    · cases hv : packetStreamingViolation s (some packet)
      · simp [pushPacketProgress, hS, hv, hBodyP]
      · simp [pushPacketProgress, hS, hv, FlowResult.isFatal]
  · cases hS : isStreamingPacket s
    · simp [pushPacketEnd, hS, hBodyE, hIdleNoViol packet hS]
    · cases hv : packetStreamingViolation s (some packet)
      · simp [pushPacketEnd, hS, hv, hBodyE]
      · simp [pushPacketEnd, hS, hv, FlowResult.isFatal]
  · cases hv : packetStreamingViolation s (some env.providerPacket)
    · cases hE : env.providerPacket.totalLength == position + extra <;>
        simp [pullPacketProgress, endPacketStreaming, hv, hE, FlowResult.isFatal]
    · simp [pullPacketProgress, hv, FlowResult.isFatal]
  · cases hv : packetStreamingViolation s (some env.providerPacket) <;>
      simp [pullPacketEnd, endPacketStreaming, hv, FlowResult.isFatal]

/-- C6, counterexample: with a session open for tree id 5 and the
provider handing back a packet with tree id 7, `pullPacketEnd` fails
fatally, but a packet HAS already been pulled from the upstream provider
before the failed check — refuting the claim that on fatal failure no
packet has yet been pulled from the upstream Provider. -/
theorem pullPacketEnd_pulls_before_failed_check :
    pullPacketEnd ⟨true, true, true, true, ⟨7, 0, 100⟩⟩ ⟨5⟩ =
      .fatal streamingErrorMsg ⟨5⟩ [.providerPullEnd ⟨7, 0, 100⟩] ∧
    ([FlowEvent.providerPullEnd ⟨7, 0, 100⟩].any isProviderPullEvent) = true := by decide

/-- C6 (amended): on fatal failure the coordinator's session state is
unchanged and nothing has been forwarded to the downstream consumer, and
for atomic push, streaming push Start/Progress/End, atomic pull and
`pullPacketStart` the check precedes every neighbor interaction (empty
fatal trace); `pullPacketEnd` and `pullPacketProgress`, however, pull the
packet from the upstream provider BEFORE the check, so their fatal trace
holds exactly that one provider pull. -/
theorem consistencyCheck_fatal_frame (s : FlowState) (packet : Packet) (env : FlowEnv)
    (datarate : Rat) (position extra : Nat) :
    FatalFrame (pushPacket s packet) s [] ∧
    FatalFrame (pushPacketStart s packet datarate) s [] ∧
    FatalFrame (pushPacketProgress s packet datarate position extra) s [] ∧
    FatalFrame (pushPacketEnd s packet) s [] ∧
    FatalFrame (pullPacket env s) s [] ∧
    FatalFrame (pullPacketStart env s datarate) s [] ∧
    FatalFrame (pullPacketEnd env s) s [.providerPullEnd env.providerPacket] ∧
    FatalFrame (pullPacketProgress env s datarate position extra) s
      [.providerPullProgress env.providerPacket datarate position extra] := by
  refine ⟨?_, ?_, ?_, ?_, ?_, ?_, ?_, ?_⟩
  · cases hv : packetStreamingViolation s none <;>
      simp [pushPacket, hv, FatalFrame]
  · cases hv : packetStreamingViolation s (some packet) <;>
      simp [pushPacketStart, hv, FatalFrame]
  · cases hS : isStreamingPacket s <;>
      cases hv : packetStreamingViolation s (some packet) <;>
      cases hE : packet.totalLength == position + extra <;>
      simp [pushPacketProgress, pushPacketProgressBody, endPacketStreaming, hS, hv, hE, FatalFrame]
  · cases hS : isStreamingPacket s <;>
      cases hv : packetStreamingViolation s (some packet) <;>
      simp [pushPacketEnd, pushPacketEndBody, endPacketStreaming, hS, hv, FatalFrame]
  · cases hv : packetStreamingViolation s none <;>
      simp [pullPacket, hv, FatalFrame]
  · cases hv : packetStreamingViolation s none <;>
      simp [pullPacketStart, hv, FatalFrame]
  · cases hv : packetStreamingViolation s (some env.providerPacket) <;>
      simp [pullPacketEnd, endPacketStreaming, hv, FatalFrame]
  · cases hv : packetStreamingViolation s (some env.providerPacket) <;>
      cases hE : env.providerPacket.totalLength == position + extra <;>
      simp [pullPacketProgress, endPacketStreaming, hv, hE, FatalFrame]

/-- C4, counterexample: a `pullPacketProgress` inside an open matching
session (tree id 5) with `position + extraLength = totalLength`
(60 + 40 = 100) does close the session (final stream id `-1`), but no
end notification is forwarded downstream: the trace holds only the
provider pull, the pulled-out signal, the processed bookkeeping and a
PROGRESS animation toward the output gate — refuting the claim that on
the boundary an end notification is forwarded downstream for the pull
variant as well. -/
theorem pullPacketProgress_boundary_no_end_forward :
    pullPacketProgress ⟨true, true, true, true, ⟨5, 0, 100⟩⟩ ⟨5⟩ 8 60 40 =
      .ok ⟨-1⟩ [.providerPullProgress ⟨5, 0, 100⟩ 8 60 40, .sigPulledOut ⟨5, 0, 100⟩,
                .packetProcessed ⟨5, 0, 100⟩, .animatePullProgress ⟨5, 0, 100⟩ 8 60 40]
        ⟨5, 0, 100⟩ ∧
    ([FlowEvent.providerPullProgress ⟨5, 0, 100⟩ 8 60 40, FlowEvent.sigPulledOut ⟨5, 0, 100⟩,
      FlowEvent.packetProcessed ⟨5, 0, 100⟩,
      FlowEvent.animatePullProgress ⟨5, 0, 100⟩ 8 60 40].any isDownstreamEndNotice) = false := by
  decide

/-- C4 (amended): for a streaming Progress call inside an open session
matching the packet's tree id, if `position + extraLength` equals the
packet's `totalLength` the call is an implicit end — the session is
closed with no separate End call needed, and the PUSH variant forwards
an end notification downstream; the PULL variant closes the session but
forwards no distinct end notification (the downstream caller receives
the packet as the return value, and the output-gate interaction remains
the progress one).  Otherwise the session remains open and a progress
notification is forwarded (push-or-send progress, resp. the progress
animation with the packet returned). -/
theorem packetProgress_boundary (s : FlowState) (packet : Packet) (env : FlowEnv)
    (datarate : Rat) (position extra : Nat)
    (hOpen : s.inProgressStreamId = (packet.treeId : Int))
    (hEnv : env.providerPacket = packet) :
    pushPacketProgress s packet datarate position extra =
      (if packet.totalLength == position + extra then
        .ok ⟨-1⟩ [.sigPushedOut (processPacket packet),
                  .packetProcessed (processPacket packet),
                  .consumerPushEnd (processPacket packet)] ()
       else
        .ok s [.consumerPushProgress (processPacket packet) datarate position extra] ()) ∧
    pullPacketProgress env s datarate position extra =
      (if packet.totalLength == position + extra then
        .ok ⟨-1⟩ [.providerPullProgress packet datarate position extra,
                  .sigPulledOut (processPacket packet),
                  .packetProcessed (processPacket packet),
                  .animatePullProgress (processPacket packet) datarate position extra]
          (processPacket packet)
       else
        .ok s [.providerPullProgress packet datarate position extra,
               .animatePullProgress (processPacket packet) datarate position extra]
          (processPacket packet)) := by
  have hS : isStreamingPacket s = true := by
    simp only [isStreamingPacket, hOpen, ne_eq, bne_iff_ne]
    omega
  have hv : packetStreamingViolation s (some packet) = false := by
    simp [packetStreamingViolation, hOpen]
  have hMk : ({ s with inProgressStreamId := (packet.treeId : Int) } : FlowState) = s := by
    cases s
    simp_all
  constructor
  · cases hE : packet.totalLength == position + extra <;>
      simp [pushPacketProgress, pushPacketProgressBody, endPacketStreaming, hS, hv, hE]
  · cases hE : packet.totalLength == position + extra <;>
      simp [pullPacketProgress, endPacketStreaming, hEnv, hv, hE, hMk]

/-- C4 witness at the boundary of the spec's test case: session open for
tree id 5, packet of total length 100, progress at position 60 with
extra length 40. -/
theorem packetProgress_boundary_witness :
    (⟨5⟩ : FlowState).inProgressStreamId = ((⟨5, 0, 100⟩ : Packet).treeId : Int) ∧
    (⟨true, true, true, true, ⟨5, 0, 100⟩⟩ : FlowEnv).providerPacket = ⟨5, 0, 100⟩ ∧
    (pushPacketProgress ⟨5⟩ ⟨5, 0, 100⟩ 8 60 40 =
      (if (⟨5, 0, 100⟩ : Packet).totalLength == 60 + 40 then
        .ok ⟨-1⟩ [.sigPushedOut (processPacket ⟨5, 0, 100⟩),
                  .packetProcessed (processPacket ⟨5, 0, 100⟩),
                  .consumerPushEnd (processPacket ⟨5, 0, 100⟩)] ()
       else
        .ok ⟨5⟩ [.consumerPushProgress (processPacket ⟨5, 0, 100⟩) 8 60 40] ()) ∧
    pullPacketProgress ⟨true, true, true, true, ⟨5, 0, 100⟩⟩ ⟨5⟩ 8 60 40 =
      (if (⟨5, 0, 100⟩ : Packet).totalLength == 60 + 40 then
        .ok ⟨-1⟩ [.providerPullProgress ⟨5, 0, 100⟩ 8 60 40,
                  .sigPulledOut (processPacket ⟨5, 0, 100⟩),
                  .packetProcessed (processPacket ⟨5, 0, 100⟩),
                  .animatePullProgress (processPacket ⟨5, 0, 100⟩) 8 60 40]
          (processPacket ⟨5, 0, 100⟩)
       else
        .ok ⟨5⟩ [.providerPullProgress ⟨5, 0, 100⟩ 8 60 40,
                 .animatePullProgress (processPacket ⟨5, 0, 100⟩) 8 60 40]
          (processPacket ⟨5, 0, 100⟩))) :=
  ⟨by decide, rfl, packetProgress_boundary ⟨5⟩ ⟨5, 0, 100⟩ ⟨true, true, true, true, ⟨5, 0, 100⟩⟩
    8 60 40 (by decide) rfl⟩

/-- C7: for a single-fragment transfer from an idle coordinator, atomic
`pushPacket` is equivalent, from the downstream consumer's perspective,
to `pushPacketStart` immediately followed by `pushPacketEnd` with zero
intermediate Progress calls: both runs succeed, downstream ends up
having received the same processed packet, and the coordinator ends in
the same idle session state `s` it started from. -/
theorem pushPacket_equiv_start_end (s : FlowState) (packet : Packet) (datarate : Rat)
    (hIdle : s.inProgressStreamId = -1) :
    ∃ ev1 ev2 ev3 s2,
      pushPacket s packet = .ok s ev1 () ∧
      pushPacketStart s packet datarate = .ok s2 ev2 () ∧
      pushPacketEnd s2 packet = .ok s ev3 () ∧
      deliveredPacket ev1 = some (processPacket packet) ∧
      deliveredPacket (ev2 ++ ev3) = some (processPacket packet) := by
  obtain ⟨i⟩ := s
  simp only at hIdle
  subst hIdle
  have hv0 : packetStreamingViolation ⟨-1⟩ none = false := by
    simp [packetStreamingViolation]
  have hv1 : packetStreamingViolation ⟨-1⟩ (some packet) = false := by
    simp [packetStreamingViolation]
  have hS : isStreamingPacket (⟨(packet.treeId : Int)⟩ : FlowState) = true := by
    simp only [isStreamingPacket, ne_eq, bne_iff_ne]
    omega
  have hv2 : packetStreamingViolation ⟨(packet.treeId : Int)⟩ (some packet) = false := by
    simp [packetStreamingViolation]
  refine ⟨[.sigPushedIn packet, .packetProcessed (processPacket packet),
           .sigPushedOut (processPacket packet), .consumerPush (processPacket packet)],
          [.sigPushedIn packet, .consumerPushStart (processPacket packet) datarate],
          [.sigPushedOut (processPacket packet), .packetProcessed (processPacket packet),
           .consumerPushEnd (processPacket packet)],
          ⟨(packet.treeId : Int)⟩, ?_, ?_, ?_, ?_, ?_⟩
  · simp [pushPacket, hv0]
  · simp [pushPacketStart, hv1, startPacketStreaming]
  · simp [pushPacketEnd, pushPacketEndBody, endPacketStreaming, hS, hv2]
  · simp [deliveredPacket, consumerDelivery, List.filterMap]
  · simp [deliveredPacket, consumerDelivery, List.filterMap]

/-- C7 witness: idle coordinator, packet with tree id 1 and total length
30, data rate 5. -/
theorem pushPacket_equiv_start_end_witness :
    (⟨-1⟩ : FlowState).inProgressStreamId = -1 ∧
    (∃ ev1 ev2 ev3 s2,
      pushPacket ⟨-1⟩ ⟨1, 2, 30⟩ = .ok ⟨-1⟩ ev1 () ∧
      pushPacketStart ⟨-1⟩ ⟨1, 2, 30⟩ 5 = .ok s2 ev2 () ∧
      pushPacketEnd s2 ⟨1, 2, 30⟩ = .ok ⟨-1⟩ ev3 () ∧
      deliveredPacket ev1 = some (processPacket ⟨1, 2, 30⟩) ∧
      deliveredPacket (ev2 ++ ev3) = some (processPacket ⟨1, 2, 30⟩)) :=
  ⟨rfl, pushPacket_equiv_start_end ⟨-1⟩ ⟨1, 2, 30⟩ 5 rfl⟩

/-- C2, counterexample: in the Streaming state (streamed packet with
tree id 5, timer scheduled at 10), a push-processed acknowledgment
leaves `streamedPacket` null — the server is NOT still in the Streaming
state afterwards, refuting the claim that the handler replaces
`streamedPacket` with the finalized result without changing state.  The
handler deletes the old reference, pull-ends from the provider, and then
deletes the finalized packet as well. -/
theorem handlePushPacketProcessed_goes_idle :
    PreemptingServer.isStreaming ⟨some ⟨5, 0, 100⟩, some 10⟩ = true ∧
    (PreemptingServer.handlePushPacketProcessed ⟨true, true, ⟨5, 0, 100⟩, ⟨5, 0, 100⟩⟩
        ⟨some ⟨5, 0, 100⟩, some 10⟩).1.streamedPacket = none := by decide

/-- C2 (amended): when the Preempting Server is Streaming and receives a
push-processed acknowledgment, it discards the old `streamedPacket`
reference, pull-ends from upstream, and discards the finalized result as
well, leaving `streamedPacket` null — the server leaves the Streaming
state (becomes Idle); the completion timer is left untouched. -/
theorem handlePushPacketProcessed_behavior (env : PreemptingServer.Env)
    (s : PreemptingServer.State)
    (h : PreemptingServer.isStreaming s = true) :
    PreemptingServer.handlePushPacketProcessed env s =
      (⟨none, s.timerAt⟩, [.providerPullEnd env.pullEndPacket]) := by
  obtain ⟨p, t⟩ := s
  simp [PreemptingServer.handlePushPacketProcessed, h]

/-- C2 witness: streaming state with packet of tree id 5 and timer at
10; the handler returns the idle state keeping the timer. -/
theorem handlePushPacketProcessed_behavior_witness :
    PreemptingServer.isStreaming ⟨some ⟨5, 0, 100⟩, some 10⟩ = true ∧
    PreemptingServer.handlePushPacketProcessed ⟨true, true, ⟨5, 0, 100⟩, ⟨5, 0, 100⟩⟩
        ⟨some ⟨5, 0, 100⟩, some 10⟩ =
      (⟨none, (⟨some ⟨5, 0, 100⟩, some 10⟩ : PreemptingServer.State).timerAt⟩,
       [.providerPullEnd (⟨true, true, ⟨5, 0, 100⟩, ⟨5, 0, 100⟩⟩ :
          PreemptingServer.Env).pullEndPacket]) :=
  ⟨by decide, handlePushPacketProcessed_behavior ⟨true, true, ⟨5, 0, 100⟩, ⟨5, 0, 100⟩⟩
    ⟨some ⟨5, 0, 100⟩, some 10⟩ (by decide)⟩

/-- C3: a downstream-pull-capability-change notification received while
Streaming immediately pull-ends from upstream, push-ends the finalized
packet downstream, clears `streamedPacket` (Idle) and cancels the
pending completion timer; afterwards the timer is disarmed, so the
timer-fire step (which requires `timerFires`) is disabled at every time
instant — a cancelled timer never fires. -/
theorem handleCanPullPacketChanged_preempts (cfg : PreemptingServer.Config)
    (env : PreemptingServer.Env) (s : PreemptingServer.State) (now : Rat)
    (h : PreemptingServer.isStreaming s = true) :
    PreemptingServer.handleCanPullPacketChanged cfg env s now =
      (⟨none, none⟩,
       [.providerPullEnd env.pullEndPacket, .consumerPushEnd env.pullEndPacket,
        .cancelTimer]) ∧
    (∀ (env2 : PreemptingServer.Env) (t : Rat),
      PreemptingServer.fireTimer env2
        (PreemptingServer.handleCanPullPacketChanged cfg env s now).1 t = none) := by
  obtain ⟨p, t⟩ := s
  constructor
  · simp [PreemptingServer.handleCanPullPacketChanged, PreemptingServer.endStreaming, h]
  · intro env2 u
    simp [PreemptingServer.handleCanPullPacketChanged, PreemptingServer.endStreaming, h,
      PreemptingServer.fireTimer, PreemptingServer.timerFires]

/-- C3 witness, the spec's scenario: packet of length 100 streamed at
rate 10 from tick 0, so the completion timer is scheduled at tick 10
(the state below is exactly `startStreaming`'s result at tick 0, see the
C5 witness); the preemption notification arrives at tick 4, the transfer
finalizes there, and the tick-10 fire step is disabled. -/
theorem handleCanPullPacketChanged_preempts_witness :
    PreemptingServer.isStreaming ⟨some ⟨5, 0, 100⟩, some 10⟩ = true ∧
    (PreemptingServer.handleCanPullPacketChanged ⟨10⟩ ⟨true, true, ⟨5, 0, 100⟩, ⟨5, 0, 100⟩⟩
        ⟨some ⟨5, 0, 100⟩, some 10⟩ 4 =
      (⟨none, none⟩,
       [.providerPullEnd (⟨true, true, ⟨5, 0, 100⟩, ⟨5, 0, 100⟩⟩ :
          PreemptingServer.Env).pullEndPacket,
        .consumerPushEnd (⟨true, true, ⟨5, 0, 100⟩, ⟨5, 0, 100⟩⟩ :
          PreemptingServer.Env).pullEndPacket,
        .cancelTimer]) ∧
    (∀ (env2 : PreemptingServer.Env) (t : Rat),
      PreemptingServer.fireTimer env2
        (PreemptingServer.handleCanPullPacketChanged ⟨10⟩
          ⟨true, true, ⟨5, 0, 100⟩, ⟨5, 0, 100⟩⟩ ⟨some ⟨5, 0, 100⟩, some 10⟩ 4).1 t = none)) :=
  ⟨by decide, handleCanPullPacketChanged_preempts ⟨10⟩ ⟨true, true, ⟨5, 0, 100⟩, ⟨5, 0, 100⟩⟩
    ⟨some ⟨5, 0, 100⟩, some 10⟩ 4 (by decide)⟩

/-- C5: the Idle → Streaming transition (here through the
push-capability-change trigger, with `canStartStreaming()` true)
performs exactly: pull-start from the provider at the configured rate,
push-start of a duplicate of the pulled packet to the consumer at the
same rate, scheduling of the completion timer `totalLength / datarate`
ahead of the current time, and the immediate processed report for the
pulled packet — with `streamedPacket` set to the pulled packet. -/
theorem startStreaming_actions (cfg : PreemptingServer.Config)
    (env : PreemptingServer.Env) (s : PreemptingServer.State) (now : Rat)
    (hIdle : PreemptingServer.isStreaming s = false)
    (hCan : PreemptingServer.canStartStreaming env = true) :
    PreemptingServer.handleCanPushPacketChanged cfg env s now =
      ({ streamedPacket := some env.pullStartPacket,
         timerAt := some (now + (env.pullStartPacket.totalLength : Rat) / cfg.datarate) },
       [.providerPullStart env.pullStartPacket cfg.datarate,
        .consumerPushStart (PreemptingServer.dup env.pullStartPacket) cfg.datarate,
        .scheduleTimerAt (now + (env.pullStartPacket.totalLength : Rat) / cfg.datarate),
        .packetProcessed env.pullStartPacket]) := by
  simp [PreemptingServer.handleCanPushPacketChanged, PreemptingServer.startStreaming,
    hIdle, hCan]

/-- C5 witness, the spec's example: upstream packet of length 100,
rate 10, start at tick 0 — completion is scheduled at tick
`0 + 100 / 10 = 10`. -/
theorem startStreaming_actions_witness :
    PreemptingServer.isStreaming ⟨none, none⟩ = false ∧
    PreemptingServer.canStartStreaming ⟨true, true, ⟨5, 0, 100⟩, ⟨5, 0, 100⟩⟩ = true ∧
    PreemptingServer.handleCanPushPacketChanged ⟨10⟩ ⟨true, true, ⟨5, 0, 100⟩, ⟨5, 0, 100⟩⟩
        ⟨none, none⟩ 0 =
      ({ streamedPacket := some ⟨5, 0, 100⟩,
         timerAt := some (0 + ((100 : Nat) : Rat) / 10) },
       [.providerPullStart ⟨5, 0, 100⟩ 10,
        .consumerPushStart (PreemptingServer.dup ⟨5, 0, 100⟩) 10,
        .scheduleTimerAt (0 + ((100 : Nat) : Rat) / 10),
        .packetProcessed ⟨5, 0, 100⟩]) ∧
    (0 + ((100 : Nat) : Rat) / 10) = 10 :=
  ⟨by decide, by decide,
   startStreaming_actions ⟨10⟩ ⟨true, true, ⟨5, 0, 100⟩, ⟨5, 0, 100⟩⟩ ⟨none, none⟩ 0
     (by decide) (by decide),
   by norm_num⟩

end INetQueueing
